import Mathlib

/-!
Shallow embedding of the PPE-detection streaming client
(frontend/components/LiveCameraTile.tsx, frontend/components/Sidebar.tsx,
frontend/components/MetadataRenderer.tsx, frontend/lib/wsClient.ts,
frontend/lib/streamSession.ts) and verification of its specification.

Times are modelled in whole milliseconds as naturals; JS `a - b` compared
against a positive bound behaves like truncated Nat subtraction whenever
`a < b` (both yield a failed comparison), so the embedding is faithful on
the comparisons the code performs.
-/

namespace PPE

/-- `WebSocket.OPEN` readyState constant (the DOM value 1). -/
def WebSocketOPEN : Nat := 1

/-- `WebSocket.CLOSED` readyState constant (the DOM value 3). -/
def WebSocketCLOSED : Nat := 3

/-- `SEND_INTERVAL_MS` from LiveCameraTile.tsx / Sidebar.tsx. -/
def SEND_INTERVAL_MS : Nat := 200

/-- The mutable per-tile state touched by the capture-send loop: the refs of
LiveCameraTile / VideoTile that `frameLoop` and `sendCanvasFrame` read or
write.  `pending` is ghost instrumentation: the number of frames handed to
`ws.send` on the current connection whose metadata reply has not arrived. -/
structure TileState where
  shouldRun : Bool          -- shouldRunRef
  lastSentAt : Nat          -- lastSentAtRef (ms)
  awaitingResult : Bool     -- awaitingResultRef
  readyState : Nat          -- wsRef.current.readyState
  bufferedAmount : Nat      -- wsRef.current.bufferedAmount (bytes)
  videoWidth : Nat          -- videoRef.current.videoWidth
  videoHeight : Nat         -- videoRef.current.videoHeight
  videoReadyState : Nat     -- videoRef.current.readyState (HTMLMediaElement)
  refsPresent : Bool        -- video && ws && canvas are all non-null
  pending : Nat             -- ghost: in-flight (unreplied) frames
deriving DecidableEq, Repr

/-- Environment of a single tick that the code cannot observe in advance:
the clock, and whether the canvas context / blob / socket send succeed. -/
structure TickInput where
  now : Nat                 -- performance.now()
  ctxOk : Bool              -- workCanvas.getContext("2d") non-null
  blobOk : Bool             -- toBlob produced a non-null blob
  sendThrows : Bool         -- the awaited send chain rejects
deriving DecidableEq, Repr

/-- Outcome of `sendCanvasFrame` (wsClient.ts): either the frame reached
`ws.send` (`sent`), or the function returned early without sending and
without raising (`skipped`), or the promise rejected (`threw`). -/
inductive SendOutcome
  | sent
  | skipped
  | threw
deriving DecidableEq, Repr

/-- `sendCanvasFrame` from wsClient.ts: returns early (no send, no error)
when the socket is not OPEN or the video has zero width or height, when the
2d context is unavailable, or when `toBlob` yields null; otherwise sends the
encoded frame, which may reject. -/
def sendCanvasFrame (videoWidth videoHeight wsReadyState : Nat)
    (ctxOk blobOk sendThrows : Bool) : SendOutcome :=
  if wsReadyState ≠ WebSocketOPEN ∨ videoWidth = 0 ∨ videoHeight = 0 then
    .skipped
  else if ctxOk = false then
    .skipped
  else if blobOk = false then
    .skipped
  else if sendThrows then
    .threw
  else
    .sent

/-- Result of one tick of a capture-send loop: the updated tile state,
whether a frame was actually handed to `ws.send`, and whether the loop
rescheduled itself via `requestAnimationFrame`. -/
structure TickResult where
  state : TileState
  sent : Bool
  rescheduled : Bool
deriving DecidableEq, Repr

namespace LiveCameraTile

/-- One tick of `frameLoop` in LiveCameraTile.tsx.  When the gate passes it
sets `lastSentAt` and `awaitingResult` *before* attempting the send, and the
catch handler resets `awaitingResult` only when the send chain rejects. -/
def frameLoop (s : TileState) (i : TickInput) : TickResult :=
  if s.shouldRun = false then
    ⟨s, false, false⟩
  else if s.refsPresent = false then
    ⟨s, false, true⟩
  else if i.now - s.lastSentAt ≥ SEND_INTERVAL_MS ∧
          s.readyState = WebSocketOPEN ∧
          s.awaitingResult = false ∧
          s.bufferedAmount < 256000 then
    let s1 := { s with lastSentAt := i.now, awaitingResult := true }
    match sendCanvasFrame s.videoWidth s.videoHeight s.readyState
        i.ctxOk i.blobOk i.sendThrows with
    | .sent => ⟨{ s1 with pending := s1.pending + 1 }, true, true⟩
    | .skipped => ⟨s1, false, true⟩
    | .threw => ⟨{ s1 with awaitingResult := false }, false, true⟩
  else
    ⟨s, false, true⟩

end LiveCameraTile

namespace VideoTile

/-- One tick of `frameLoop` in the upload tile (Sidebar.tsx VideoTile); its
gate additionally requires `video.readyState >= 2`. -/
def frameLoop (s : TileState) (i : TickInput) : TickResult :=
  if s.shouldRun = false then
    ⟨s, false, false⟩
  else if s.refsPresent = false then
    ⟨s, false, true⟩
  else if i.now - s.lastSentAt ≥ SEND_INTERVAL_MS ∧
          s.videoReadyState ≥ 2 ∧
          s.readyState = WebSocketOPEN ∧
          s.awaitingResult = false ∧
          s.bufferedAmount < 256000 then
    let s1 := { s with lastSentAt := i.now, awaitingResult := true }
    match sendCanvasFrame s.videoWidth s.videoHeight s.readyState
        i.ctxOk i.blobOk i.sendThrows with
    | .sent => ⟨{ s1 with pending := s1.pending + 1 }, true, true⟩
    | .skipped => ⟨s1, false, true⟩
    | .threw => ⟨{ s1 with awaitingResult := false }, false, true⟩
  else
    ⟨s, false, true⟩

end VideoTile

/-- The five gating conditions of §4.2 of the specification, at a tile state
and a tick time. -/
def gatesHold (s : TileState) (now : Nat) : Prop :=
  s.shouldRun = true ∧
  s.readyState = WebSocketOPEN ∧
  now - s.lastSentAt ≥ SEND_INTERVAL_MS ∧
  s.awaitingResult = false ∧
  s.bufferedAmount < 256000

instance (s : TileState) (now : Nat) : Decidable (gatesHold s now) := by
  unfold gatesHold; infer_instance

/-! ### Fall-alert state machine (metadata callback of LiveCameraTile.tsx) -/

/-- The refs driving the fall-alert decision in LiveCameraTile.tsx:
`fallTrueCountRef`, `fallFalseCountRef`, `acknowledgedFallRef`,
`showAlertRef` and `lastPopupAtRef` (ms, `Date.now()` clock). -/
structure FallState where
  fallTrueCount : Nat
  fallFalseCount : Nat
  acknowledgedFall : Bool
  showAlert : Bool
  lastPopupAt : Nat
deriving DecidableEq, Repr

/-- Initial values of the fall-alert refs when the tile mounts. -/
def initFallState : FallState :=
  { fallTrueCount := 0, fallFalseCount := 0, acknowledgedFall := false
    showAlert := false, lastPopupAt := 0 }

/-- The counter update performed first by the metadata callback: on a `true`
reply increment `fallTrueCount` and zero `fallFalseCount`; on a `false`
reply increment `fallFalseCount` and, once it is ≥ 3, zero `fallTrueCount`
and clear the acknowledged flag. -/
def updateFallCounts (s : FallState) (fallDetected : Bool) : FallState :=
  if fallDetected then
    { s with fallTrueCount := s.fallTrueCount + 1, fallFalseCount := 0 }
  else
    let s1 := { s with fallFalseCount := s.fallFalseCount + 1 }
    if s1.fallFalseCount ≥ 3 then
      { s1 with fallTrueCount := 0, acknowledgedFall := false }
    else
      s1

/-- One metadata reply processed by the callback installed in `startLive`:
update the counters, then raise the alert when `fallTrueCount >= 2`, the
alert is not acknowledged, not already showing, and `now - lastPopupAt`
exceeds 8000 ms; raising records `lastPopupAt := now`.  Returns the new
state and whether the alert was raised on this reply. -/
def fallStep (s : FallState) (fallDetected : Bool) (now : Nat) :
    FallState × Bool :=
  let s1 := updateFallCounts s fallDetected
  if s1.fallTrueCount ≥ 2 ∧
     s1.acknowledgedFall = false ∧
     s1.showAlert = false ∧
     now - s1.lastPopupAt > 8000 then
    ({ s1 with showAlert := true, lastPopupAt := now }, true)
  else
    (s1, false)

/-- `acknowledgeFall` from LiveCameraTile.tsx: sets the acknowledged flag,
refreshes `lastPopupAt` to the current time, and hides the alert. -/
def acknowledgeFall (s : FallState) (now : Nat) : FallState :=
  { s with acknowledgedFall := true, lastPopupAt := now, showAlert := false }

/-- Run a list of timed metadata replies through the fall-alert machine. -/
def runFall (s : FallState) : List (Bool × Nat) → FallState
  | [] => s
  | (fd, t) :: rest => runFall (fallStep s fd t).1 rest

/-- An external stimulus of the fall-alert machine: a metadata reply
carrying `fall_detected`, or an operator acknowledgment, each at an
absolute `Date.now()` time. -/
inductive FallEvent
  | reply (fallDetected : Bool) (now : Nat)
  | ack (now : Nat)
deriving DecidableEq, Repr

/-- The time at which a fall event occurs. -/
def FallEvent.time : FallEvent → Nat
  | .reply _ t => t
  | .ack t => t

/-- Process one fall event; the Bool records whether the alert was raised. -/
def fallEventStep (s : FallState) : FallEvent → FallState × Bool
  | .reply fd t => fallStep s fd t
  | .ack t => (acknowledgeFall s t, false)

/-- The times at which the alert is raised along a run of the machine. -/
def raiseTimes (s : FallState) : List FallEvent → List Nat
  | [] => []
  | e :: rest =>
    let r := fallEventStep s e
    if r.2 then e.time :: raiseTimes r.1 rest else raiseTimes r.1 rest

/-- `chrono t0 evs` holds when the event times are nondecreasing and start
no earlier than `t0` (wall-clock time moves forward). -/
def chrono : Nat → List FallEvent → Bool
  | _, [] => true
  | t0, e :: rest => t0 ≤ e.time && chrono e.time rest

/-! ### Interleavings of the live tile's asynchronous callbacks -/

/-- The asynchronous stimuli that can touch the live tile's capture-send
state: a scheduler tick, arrival of a metadata reply, the socket's close
handler, the socket opening, `detachRuntime`, the start of a run, and
changes of the socket buffer or of the video element's decoded size. -/
inductive TileEvent
  | tick (i : TickInput)
  | metadataArrived     -- callback passed to createInferSocket
  | socketClosed        -- wsRef.current.onclose
  | socketOpened        -- the connection reaches OPEN
  | detach              -- detachRuntime
  | startRun            -- startLive / resumeLive set shouldRunRef
  | bufferChanged (n : Nat)
  | videoDecoded (w h rs : Nat)
deriving DecidableEq, Repr

/-- One step of the live tile under an asynchronous event.  A metadata
reply clears `awaitingResult` (acknowledging the in-flight frame, if any);
closing the socket clears `awaitingResult`, and frames in flight on the
closed connection can no longer receive a reply. -/
def tileStep (s : TileState) : TileEvent → TileState
  | .tick i => (LiveCameraTile.frameLoop s i).state
  | .metadataArrived =>
      { s with awaitingResult := false, pending := s.pending - 1 }
  | .socketClosed =>
      { s with awaitingResult := false, pending := 0,
               readyState := WebSocketCLOSED }
  | .socketOpened => { s with readyState := WebSocketOPEN }
  | .detach =>
      { s with shouldRun := false, awaitingResult := false, pending := 0,
               readyState := WebSocketCLOSED }
  | .startRun => { s with shouldRun := true }
  | .bufferChanged n => { s with bufferedAmount := n }
  | .videoDecoded w h rs =>
      { s with videoWidth := w, videoHeight := h, videoReadyState := rs }

/-- Run a list of asynchronous events against the live tile. -/
def runTile (s : TileState) : List TileEvent → TileState
  | [] => s
  | e :: rest => runTile (tileStep s e) rest

/-- The live tile's state when it mounts: nothing running, nothing sent,
no connection, video not yet decoded. -/
def initTile : TileState :=
  { shouldRun := false, lastSentAt := 0, awaitingResult := false
    readyState := 0, bufferedAmount := 0, videoWidth := 0, videoHeight := 0
    videoReadyState := 0, refsPresent := true, pending := 0 }

/-- The single-flight invariant of the capture-send loop: never more than
one in-flight frame, and none at all while no reply is awaited. -/
def tileInv (s : TileState) : Prop :=
  s.pending ≤ 1 ∧ (s.awaitingResult = false → s.pending = 0)

/-! ### Close handlers of the two tile variants -/

/-- What a close handler does: it always clears `awaitingResult`, and it
may schedule one reconnect attempt after a delay (in ms). -/
structure CloseResult where
  awaitingResult : Bool
  reconnectDelayMs : Option Nat
deriving DecidableEq, Repr

/-- The `onClose` callback of the upload tile (Sidebar.tsx VideoTile,
`connectSocket`): clear the in-flight flag and, when the intent flag is
still set, schedule `connectSocket` again after a fixed 600 ms. -/
def uploadOnClose (shouldRun : Bool) : CloseResult :=
  { awaitingResult := false
    reconnectDelayMs := if shouldRun then some 600 else none }

/-- The `onclose` handler of the live tile (LiveCameraTile.tsx,
`startLive` / `resumeLive`): it overwrites the handler installed by
`createInferSocket` and only clears the in-flight flag; it never schedules
a reconnect, whatever the intent flag. -/
def liveOnClose (_shouldRun : Bool) : CloseResult :=
  { awaitingResult := false, reconnectDelayMs := none }

/-! ### Metadata overlay renderer (MetadataRenderer.tsx) -/

/-- A detection box in source-frame pixel coordinates (wsClient.ts). -/
structure Detection where
  x1 : ℚ
  y1 : ℚ
  x2 : ℚ
  y2 : ℚ
  label : String
  conf : ℚ
deriving DecidableEq, Repr

/-- The fields of a metadata reply the renderer reads (wsClient.ts
`InferMetadata`; `frame_width`/`frame_height` may be absent or null). -/
structure InferMetadata where
  dets : List Detection
  fall_detected : Bool
  frame_width : Option ℚ
  frame_height : Option ℚ
deriving DecidableEq, Repr

/-- The metadata effect of MetadataRenderer.tsx: when a reply with a
non-empty detection list arrives, record it as the sticky set together with
the current time; otherwise leave the sticky refs unchanged. -/
def noteMetadata (m : Option InferMetadata) (sticky : List Detection)
    (stickyAt now : Nat) : List Detection × Nat :=
  match m with
  | some md => if md.dets.length > 0 then (md.dets, now) else (sticky, stickyAt)
  | none => (sticky, stickyAt)

/-- The effective detection set resolved by `draw`: the latest metadata's
list when non-empty, else the sticky set while less than 600 ms old, else
nothing. -/
def resolveDets (m : Option InferMetadata) (sticky : List Detection)
    (stickyAt now : Nat) : List Detection :=
  match m with
  | some md =>
    if md.dets.length > 0 then md.dets
    else if now - stickyAt < 600 then sticky
    else []
  | none => if now - stickyAt < 600 then sticky else []

/-- The detection list carried by the latest metadata (empty when no
metadata has arrived). -/
def latestDets : Option InferMetadata → List Detection
  | some md => md.dets
  | none => []

/-- The letterbox rectangle inside the canvas that `draw` computes. -/
structure DrawRect where
  drawX : ℚ
  drawY : ℚ
  drawW : ℚ
  drawH : ℚ
deriving DecidableEq, Repr

/-- The source dimensions `draw` uses: the metadata's declared
`frame_width`/`frame_height` when present, falling back to the video
element's native `videoWidth`/`videoHeight`. -/
def sourceDims (m : Option InferMetadata) (videoW videoH : ℚ) : ℚ × ℚ :=
  ((m.bind (fun md => md.frame_width)).getD videoW,
   (m.bind (fun md => md.frame_height)).getD videoH)

/-- The aspect-ratio-preserving letterbox computation of `draw`
(MetadataRenderer.tsx): when the source is proportionally wider than the
canvas the width fills the canvas and the box is centered vertically,
otherwise the height fills the canvas and the box is centered
horizontally. -/
def letterbox (canvasW canvasH sourceW sourceH : ℚ) : DrawRect :=
  let canvasAspect := canvasW / canvasH
  let videoAspect := sourceW / sourceH
  if videoAspect > canvasAspect then
    { drawX := 0, drawY := (canvasH - canvasW / videoAspect) / 2
      drawW := canvasW, drawH := canvasW / videoAspect }
  else
    { drawX := (canvasW - canvasH * videoAspect) / 2, drawY := 0
      drawW := canvasH * videoAspect, drawH := canvasH }

/-- Where `drawBox` places a detection on the canvas: the source
coordinates scaled by `drawW/sourceW` and `drawH/sourceH` and offset by the
letterbox origin.  Returns `(x, y, w, h)` of the stroked rectangle. -/
def drawBoxRect (det : Detection) (r : DrawRect) (sourceW sourceH : ℚ) :
    ℚ × ℚ × ℚ × ℚ :=
  let scaleX := r.drawW / sourceW
  let scaleY := r.drawH / sourceH
  (r.drawX + det.x1 * scaleX, r.drawY + det.y1 * scaleY,
   (det.x2 - det.x1) * scaleX, (det.y2 - det.y1) * scaleY)

/-! ### Session registry (streamSession.ts) -/

/-- A live session held by the module-level registry: the id set of the
captured `MediaStream`'s tracks, and the auto-start flag. -/
structure LiveSession where
  trackIds : List Nat
  autoStart : Bool
deriving DecidableEq, Repr

/-- An upload session: the object URL of the uploaded file and the
auto-start flag. -/
structure UploadSession where
  videoUrl : String
  autoStart : Bool
deriving DecidableEq, Repr

/-- JS `Map.set` on an association list with unique keys: replace the
entry when the key is present, append it otherwise. -/
def mapSet {α : Type} (l : List (String × α)) (k : String) (v : α) :
    List (String × α) :=
  if l.any (fun p => p.1 == k) then
    l.map (fun p => if p.1 == k then (k, v) else p)
  else
    l ++ [(k, v)]

/-- JS `Map.get` on an association list. -/
def mapGet {α : Type} (l : List (String × α)) (k : String) : Option α :=
  (l.find? (fun p => p.1 == k)).map (fun p => p.2)

/-- JS `Map.delete` on an association list. -/
def mapDelete {α : Type} (l : List (String × α)) (k : String) :
    List (String × α) :=
  l.filter (fun p => !(p.1 == k))

/-- The module state of streamSession.ts: the two registries, plus the
observable side effects of clearing — the ids of device tracks on which
`stop()` was called and the object URLs revoked. -/
structure SessionWorld where
  liveSessions : List (String × LiveSession)
  uploadSessions : List (String × UploadSession)
  stoppedTracks : List Nat
  revokedUrls : List String
deriving DecidableEq, Repr

/-- `getLiveSession` from streamSession.ts. -/
def getLiveSession (camId : String) (w : SessionWorld) : Option LiveSession :=
  mapGet w.liveSessions camId

/-- `setLiveSession` from streamSession.ts. -/
def setLiveSession (camId : String) (s : LiveSession) (w : SessionWorld) :
    SessionWorld :=
  { w with liveSessions := mapSet w.liveSessions camId s }

/-- `clearLiveSession` from streamSession.ts: stop every track of the
registered stream (when one is registered), then delete the entry. -/
def clearLiveSession (camId : String) (w : SessionWorld) : SessionWorld :=
  let stopped :=
    match getLiveSession camId w with
    | some s => w.stoppedTracks ++ s.trackIds
    | none => w.stoppedTracks
  { w with liveSessions := mapDelete w.liveSessions camId
           stoppedTracks := stopped }

/-- `setLiveAutoStart` from streamSession.ts: look the entry up, return
unchanged when absent, otherwise re-set it with the new flag. -/
def setLiveAutoStart (camId : String) (autoStart : Bool) (w : SessionWorld) :
    SessionWorld :=
  match getLiveSession camId w with
  | none => w
  | some current =>
    { w with liveSessions :=
        mapSet w.liveSessions camId { current with autoStart := autoStart } }

/-- `getUploadSession` from streamSession.ts. -/
def getUploadSession (camId : String) (w : SessionWorld) :
    Option UploadSession :=
  mapGet w.uploadSessions camId

/-- `clearUploadSession` from streamSession.ts: revoke the object URL of
the registered session (when present), then delete the entry. -/
def clearUploadSession (camId : String) (w : SessionWorld) : SessionWorld :=
  let revoked :=
    match getUploadSession camId w with
    | some s => w.revokedUrls ++ [s.videoUrl]
    | none => w.revokedUrls
  { w with uploadSessions := mapDelete w.uploadSessions camId
           revokedUrls := revoked }

/-- `setUploadAutoStart` from streamSession.ts. -/
def setUploadAutoStart (camId : String) (autoStart : Bool)
    (w : SessionWorld) : SessionWorld :=
  match getUploadSession camId w with
  | none => w
  | some current =>
    { w with uploadSessions :=
        mapSet w.uploadSessions camId { current with autoStart := autoStart } }

/-- The registry-visible effects of `stopAll` in LiveCameraTile.tsx, in
source order: `clearLiveSession(camId)` then `setLiveAutoStart(camId,
false)`. -/
def stopAllRegistry (camId : String) (w : SessionWorld) : SessionWorld :=
  setLiveAutoStart camId false (clearLiveSession camId w)

/-- The guard of `resumeLive` in LiveCameraTile.tsx: the remount resumes
streaming only when a session is registered and its auto-start flag is
set. -/
def resumeLiveStarts (camId : String) (w : SessionWorld) : Bool :=
  match getLiveSession camId w with
  | none => false
  | some s => s.autoStart

/-! ### Concrete states used to exercise the embedding -/

/-- A tile state in which all five gating conditions can pass at time
200 ms and the video is decoded at 640×480. -/
def sReady : TileState :=
  { shouldRun := true, lastSentAt := 0, awaitingResult := false
    readyState := 1, bufferedAmount := 0, videoWidth := 640
    videoHeight := 480, videoReadyState := 4, refsPresent := true
    pending := 0 }

/-- A benign tick environment at 200 ms. -/
def iOk : TickInput :=
  { now := 200, ctxOk := true, blobOk := true, sendThrows := false }

/-- Like `sReady` but the video element has not decoded a frame yet
(zero width and height). -/
def sZeroDims : TileState :=
  { shouldRun := true, lastSentAt := 0, awaitingResult := false
    readyState := 1, bufferedAmount := 0, videoWidth := 0
    videoHeight := 0, videoReadyState := 0, refsPresent := true
    pending := 0 }

/-- A later benign tick environment, at 1000 ms. -/
def iLater : TickInput :=
  { now := 1000, ctxOk := true, blobOk := true, sendThrows := false }

/-- A fall state one `true` reply away from the two-in-a-row threshold,
with the alert hidden, unacknowledged, and last shown at time 0. -/
def fallNearThreshold : FallState :=
  { fallTrueCount := 1, fallFalseCount := 0, acknowledgedFall := false
    showAlert := false, lastPopupAt := 0 }

/-- Two fall-positive replies in chronological order. -/
def twoTrueReplies : List FallEvent :=
  [FallEvent.reply true 100, FallEvent.reply true 200]

/-- A metadata reply declaring a 1920×1080 source frame. -/
def md1920 : InferMetadata :=
  { dets := [], fall_detected := false
    frame_width := some 1920, frame_height := some 1080 }

/-- A detection spanning the whole of a 1920×1080 source frame. -/
def fullFrameDet : Detection :=
  { x1 := 0, y1 := 0, x2 := 1920, y2 := 1080, label := "person"
    conf := 9/10 }

/-- A sample detection used by the overlay-stickiness witness. -/
def det0 : Detection :=
  { x1 := 1, y1 := 2, x2 := 3, y2 := 4, label := "helmet", conf := 1/2 }

/-- A metadata reply with an empty detection list. -/
def mdEmpty : InferMetadata :=
  { dets := [], fall_detected := false
    frame_width := none, frame_height := none }

/-- A metadata reply whose detection list holds `det0`. -/
def mdWithDet : InferMetadata :=
  { dets := [det0], fall_detected := false
    frame_width := none, frame_height := none }

/-- A registry holding a single live session for camera `cam1` with two
device tracks and auto-start set. -/
def w0 : SessionWorld :=
  { liveSessions := [("cam1", { trackIds := [5, 7], autoStart := true })]
    uploadSessions := [], stoppedTracks := [], revokedUrls := [] }

/-- The empty registry. -/
def wEmpty : SessionWorld :=
  { liveSessions := [], uploadSessions := [], stoppedTracks := []
    revokedUrls := [] }

/-! ## Theorems -/

/-- C1: in both the live tile and the upload tile, a frame is handed to
`ws.send` on a tick only when all five gating conditions hold at that tick:
intent flag set, socket OPEN, at least 200 ms since the last send, no reply
outstanding, and buffered amount below 256,000 bytes; whenever any of the
five fails, no frame is sent. -/
theorem frame_sent_only_if_five_gates (s : TileState) (i : TickInput) :
    ((LiveCameraTile.frameLoop s i).sent = true → gatesHold s i.now) ∧
    ((VideoTile.frameLoop s i).sent = true → gatesHold s i.now) := by
  constructor
  · intro h
    rw [LiveCameraTile.frameLoop] at h
    split at h
    · simp at h
    · split at h
      · simp at h
      · split at h
        · rename_i hrun _ hg
          split at h
          · obtain ⟨g1, g2, g3, g4⟩ := hg
            exact ⟨by revert hrun; cases s.shouldRun <;> simp, g2, g1, g3, g4⟩
          · simp at h
          · simp at h
        · simp at h
  · intro h
    rw [VideoTile.frameLoop] at h
    split at h
    · simp at h
    · split at h
      · simp at h
      · split at h
        · rename_i hrun _ hg
          split at h
          · obtain ⟨g1, _, g2, g3, g4⟩ := hg
            exact ⟨by revert hrun; cases s.shouldRun <;> simp, g2, g1, g3, g4⟩
          · simp at h
          · simp at h
        · simp at h

/-- C1 witness: at `sReady` and time 200 ms a frame is actually sent, and
the theorem yields the five gates. -/
theorem frame_sent_only_if_five_gates_witness :
    (LiveCameraTile.frameLoop sReady iOk).sent = true ∧ gatesHold sReady iOk.now :=
  ⟨by decide, (frame_sent_only_if_five_gates sReady iOk).1 (by decide)⟩

/-- C5 (the code contradicts the claim): at a live-tile tick whose five
gates all pass but whose video element still has zero dimensions, the tick
is not a no-op — it records `lastSentAt` and sets `awaitingResult` before
calling `sendCanvasFrame`, which returns `skipped` (neither a send nor a
failure), so no frame is sent, the catch handler never clears the flag, no
metadata reply is provoked, and every subsequent tick stays blocked with
`awaitingResult` still true. -/
theorem zero_dims_tick_sticks_awaiting :
    gatesHold sZeroDims iOk.now ∧
    sZeroDims.videoWidth = 0 ∧ sZeroDims.videoHeight = 0 ∧
    sZeroDims.awaitingResult = false ∧ sZeroDims.lastSentAt = 0 ∧
    sendCanvasFrame 0 0 1 true true false = SendOutcome.skipped ∧
    (LiveCameraTile.frameLoop sZeroDims iOk).sent = false ∧
    (LiveCameraTile.frameLoop sZeroDims iOk).rescheduled = true ∧
    (LiveCameraTile.frameLoop sZeroDims iOk).state.awaitingResult = true ∧
    (LiveCameraTile.frameLoop sZeroDims iOk).state.lastSentAt = 200 ∧
    (LiveCameraTile.frameLoop
        (LiveCameraTile.frameLoop sZeroDims iOk).state iLater).sent = false ∧
    (LiveCameraTile.frameLoop
        (LiveCameraTile.frameLoop sZeroDims iOk).state iLater).state.awaitingResult
      = true := by decide

/-- C6 counterexample: when the live tile's connection closes while the
intent flag is set, no reconnect is scheduled at all — in particular not
one after 600 ms as the claim states for both variants. -/
theorem live_close_never_reconnects :
    (liveOnClose true).reconnectDelayMs = none ∧
    ((liveOnClose true).reconnectDelayMs == some 600) = false ∧
    (uploadOnClose true).reconnectDelayMs = some 600 := by decide

/-- C6 amended: on unexpected close the fixed 600 ms auto-reconnect applies
only to the upload-tile variant (scheduled exactly when the intent flag is
still set); the live-tile close handler merely clears the in-flight flag
and never schedules a reconnect. -/
theorem reconnect_policy_upload_only (b : Bool) :
    (uploadOnClose b).reconnectDelayMs = (if b then some 600 else none) ∧
    (uploadOnClose b).awaitingResult = false ∧
    (liveOnClose b).reconnectDelayMs = none ∧
    (liveOnClose b).awaitingResult = false := by
  cases b <;> exact ⟨rfl, rfl, rfl, rfl⟩

theorem tileStep_preserves_inv (s : TileState) (e : TileEvent)
    (h : tileInv s) : tileInv (tileStep s e) := by
  obtain ⟨h1, h2⟩ := h
  cases e with
  | tick i =>
    show tileInv (LiveCameraTile.frameLoop s i).state
    rw [LiveCameraTile.frameLoop]
    split
    · exact ⟨h1, h2⟩
    · split
      · exact ⟨h1, h2⟩
      · split
        · rename_i hg
          have hp : s.pending = 0 := h2 hg.2.2.1
          split
          · exact ⟨show s.pending + 1 ≤ 1 by omega,
                   fun hco => Bool.noConfusion (show true = false from hco)⟩
          · exact ⟨show s.pending ≤ 1 by omega,
                   fun hco => Bool.noConfusion (show true = false from hco)⟩
          · exact ⟨show s.pending ≤ 1 by omega, fun _ => hp⟩
        · exact ⟨h1, h2⟩
  | metadataArrived =>
    exact ⟨show s.pending - 1 ≤ 1 by omega,
           fun _ => show s.pending - 1 = 0 by omega⟩
  | socketClosed => exact ⟨show (0 : Nat) ≤ 1 by omega, fun _ => rfl⟩
  | socketOpened => exact ⟨h1, h2⟩
  | detach => exact ⟨show (0 : Nat) ≤ 1 by omega, fun _ => rfl⟩
  | startRun => exact ⟨h1, h2⟩
  | bufferChanged n => exact ⟨h1, h2⟩
  | videoDecoded w hh rs => exact ⟨h1, h2⟩

theorem runTile_preserves_inv (evs : List TileEvent) (s : TileState)
    (h : tileInv s) : tileInv (runTile s evs) := by
  induction evs generalizing s with
  | nil => exact h
  | cons e rest ih => exact ih _ (tileStep_preserves_inv s e h)

/-- C2: under every interleaving of scheduler ticks, metadata callbacks,
close callbacks and the other asynchronous events, the live tile state
reached from mount never has two unacknowledged outbound frames: at most
one frame is in flight, because `awaitingResult` is set true immediately
before the single send path and every send requires it to be false. -/
theorem at_most_one_frame_in_flight (evs : List TileEvent) :
    (runTile initTile evs).pending ≤ 1 ∧
    ((runTile initTile evs).awaitingResult = false →
      (runTile initTile evs).pending = 0) :=
  runTile_preserves_inv evs initTile ⟨by decide, fun _ => by decide⟩

/-- C2 witness: the bound applied to a concrete interleaving in which a
frame really is sent (start, socket open, a passing tick). -/
theorem at_most_one_frame_in_flight_witness :
    (runTile initTile
      [TileEvent.startRun, TileEvent.socketOpened,
       TileEvent.videoDecoded 640 480 4, TileEvent.tick iOk]).pending = 1 ∧
    (runTile initTile
      [TileEvent.startRun, TileEvent.socketOpened,
       TileEvent.videoDecoded 640 480 4, TileEvent.tick iOk]).pending ≤ 1 :=
  ⟨by decide,
   (at_most_one_frame_in_flight
     [TileEvent.startRun, TileEvent.socketOpened,
      TileEvent.videoDecoded 640 480 4, TileEvent.tick iOk]).1⟩

theorem updateFallCounts_lastPopupAt (s : FallState) (fd : Bool) :
    (updateFallCounts s fd).lastPopupAt = s.lastPopupAt := by
  simp only [updateFallCounts]
  split_ifs <;> rfl

theorem updateFallCounts_showAlert (s : FallState) (fd : Bool) :
    (updateFallCounts s fd).showAlert = s.showAlert := by
  simp only [updateFallCounts]
  split_ifs <;> rfl

theorem fallStep_spec (s : FallState) (fd : Bool) (now : Nat) :
    ((fallStep s fd now).2 = true ↔
      (updateFallCounts s fd).fallTrueCount ≥ 2 ∧
      (updateFallCounts s fd).acknowledgedFall = false ∧
      (updateFallCounts s fd).showAlert = false ∧
      now - (updateFallCounts s fd).lastPopupAt > 8000) ∧
    ((fallStep s fd now).2 = true →
      (fallStep s fd now).1.lastPopupAt = now ∧
      (fallStep s fd now).1.showAlert = true) ∧
    ((fallStep s fd now).2 = false →
      (fallStep s fd now).1.lastPopupAt = s.lastPopupAt) := by
  simp only [fallStep]
  split
  · rename_i hc
    exact ⟨iff_of_true rfl hc, fun _ => ⟨rfl, rfl⟩,
           fun hco => Bool.noConfusion hco⟩
  · rename_i hc
    exact ⟨iff_of_false (fun hco => Bool.noConfusion hco) hc,
           fun hco => Bool.noConfusion hco,
           fun _ => updateFallCounts_lastPopupAt s fd⟩

/-- C3 counterexample: with one prior `true` reply, the alert hidden and
unacknowledged, and exactly 8000 ms elapsed since the alert was last shown,
all the conditions of the claim hold after the counter update (the claim
requires only "at least 8000 ms"), yet the code does not raise the alert,
because its cooldown test is strictly `> 8000`. -/
theorem fall_cooldown_boundary_counterexample :
    (updateFallCounts fallNearThreshold true).fallTrueCount ≥ 2 ∧
    (updateFallCounts fallNearThreshold true).acknowledgedFall = false ∧
    (updateFallCounts fallNearThreshold true).showAlert = false ∧
    8000 - (updateFallCounts fallNearThreshold true).lastPopupAt ≥ 8000 ∧
    (fallStep fallNearThreshold true 8000).2 = false ∧
    (fallStep fallNearThreshold true 8000).1.showAlert = false := by decide

/-- C3 amended: per metadata reply, `fall_detected = true` increments
`fallTrueCount` and zeroes `fallFalseCount`; `fall_detected = false`
increments `fallFalseCount` and, once that reaches 3, zeroes
`fallTrueCount` and clears the acknowledged flag; the alert is raised iff
the updated `fallTrueCount` is ≥ 2, the alert is not acknowledged, not
already showing, and *strictly more than* 8000 ms have elapsed since the
alert was last shown; raising shows the alert and records the timestamp.
From the initial state, the replies `[true, true]` raise the alert, and
`[true, false, false, false]` returns `fallTrueCount` to 0 and clears a
prior acknowledgment. -/
theorem fall_alert_machine_amended :
    (∀ s : FallState,
      (updateFallCounts s true).fallTrueCount = s.fallTrueCount + 1 ∧
      (updateFallCounts s true).fallFalseCount = 0 ∧
      (updateFallCounts s false).fallFalseCount = s.fallFalseCount + 1 ∧
      ((updateFallCounts s false).fallFalseCount ≥ 3 →
        (updateFallCounts s false).fallTrueCount = 0 ∧
        (updateFallCounts s false).acknowledgedFall = false)) ∧
    (∀ (s : FallState) (fd : Bool) (now : Nat),
      ((fallStep s fd now).2 = true ↔
        (updateFallCounts s fd).fallTrueCount ≥ 2 ∧
        (updateFallCounts s fd).acknowledgedFall = false ∧
        s.showAlert = false ∧
        now - s.lastPopupAt > 8000) ∧
      ((fallStep s fd now).2 = true →
        (fallStep s fd now).1.showAlert = true ∧
        (fallStep s fd now).1.lastPopupAt = now)) ∧
    (runFall initFallState [(true, 9000), (true, 9000)]).showAlert = true ∧
    (runFall { initFallState with acknowledgedFall := true }
        [(true, 0), (false, 1), (false, 2), (false, 3)]).fallTrueCount = 0 ∧
    (runFall { initFallState with acknowledgedFall := true }
        [(true, 0), (false, 1), (false, 2), (false, 3)]).acknowledgedFall
      = false := by
  refine ⟨fun s => ⟨rfl, rfl, ?_, ?_⟩, fun s fd now => ⟨?_, ?_⟩,
          by decide, by decide, by decide⟩
  · simp only [updateFallCounts]
    split_ifs <;> simp_all
  · intro h3
    simp only [updateFallCounts] at h3 ⊢
    split_ifs at h3 ⊢ <;> simp_all
  · rw [(fallStep_spec s fd now).1,
        updateFallCounts_showAlert, updateFallCounts_lastPopupAt]
  · exact fun h => ⟨((fallStep_spec s fd now).2.1 h).2,
                    ((fallStep_spec s fd now).2.1 h).1⟩

/-- C3 amended witness: the raise-iff instantiated at a concrete reply
that does raise the alert. -/
theorem fall_alert_machine_amended_witness :
    (fallStep fallNearThreshold true 9000).2 = true ∧
    ((fallStep fallNearThreshold true 9000).2 = true ↔
      (updateFallCounts fallNearThreshold true).fallTrueCount ≥ 2 ∧
      (updateFallCounts fallNearThreshold true).acknowledgedFall = false ∧
      fallNearThreshold.showAlert = false ∧
      9000 - fallNearThreshold.lastPopupAt > 8000) :=
  ⟨by decide, (fall_alert_machine_amended.2.1 fallNearThreshold true 9000).1⟩

theorem chrono_mono {a b : Nat} (hab : a ≤ b) :
    ∀ evs : List FallEvent, chrono b evs = true → chrono a evs = true := by
  intro evs h
  cases evs with
  | nil => rfl
  | cons e rest =>
    rw [chrono, Bool.and_eq_true] at h ⊢
    exact ⟨decide_eq_true (by have := of_decide_eq_true h.1; omega), h.2⟩

theorem chain_head_mono {a b : Nat} {l : List Nat} (hab : b ≤ a)
    (h : List.Chain' (fun x y => x + 8000 < y) (a :: l)) :
    List.Chain' (fun x y => x + 8000 < y) (b :: l) := by
  cases l with
  | nil => exact List.chain'_singleton b
  | cons c l2 =>
    rw [List.chain'_cons] at h ⊢
    exact ⟨by omega, h.2⟩

theorem raiseTimes_chain (evs : List FallEvent) : ∀ s : FallState,
    chrono s.lastPopupAt evs = true →
    List.Chain' (fun x y => x + 8000 < y)
      (s.lastPopupAt :: raiseTimes s evs) := by
  induction evs with
  | nil => exact fun s _ => List.chain'_singleton _
  | cons e rest ih =>
    intro s h
    rw [chrono, Bool.and_eq_true] at h
    obtain ⟨h1, h2⟩ := h
    have h1le : s.lastPopupAt ≤ e.time := of_decide_eq_true h1
    cases e with
    | reply fd t =>
      cases hr : (fallStep s fd t).2 with
      | false =>
        have hlast : (fallStep s fd t).1.lastPopupAt = s.lastPopupAt :=
          (fallStep_spec s fd t).2.2 hr
        have hch : chrono (fallStep s fd t).1.lastPopupAt rest = true := by
          rw [hlast]; exact chrono_mono h1le rest h2
        have hmain := ih (fallStep s fd t).1 hch
        rw [hlast] at hmain
        simpa [raiseTimes, fallEventStep, hr] using hmain
      | true =>
        have hcond := (fallStep_spec s fd t).1.mp hr
        have hgap : s.lastPopupAt + 8000 < t := by
          have := hcond.2.2.2
          rw [updateFallCounts_lastPopupAt] at this
          omega
        have hlast : (fallStep s fd t).1.lastPopupAt = t :=
          ((fallStep_spec s fd t).2.1 hr).1
        have hch : chrono (fallStep s fd t).1.lastPopupAt rest = true := by
          rw [hlast]; exact h2
        have hmain := ih (fallStep s fd t).1 hch
        rw [hlast] at hmain
        have hfull : List.Chain' (fun x y => x + 8000 < y)
            (s.lastPopupAt :: t :: raiseTimes (fallStep s fd t).1 rest) :=
          List.chain'_cons.mpr ⟨hgap, hmain⟩
        simpa [raiseTimes, fallEventStep, hr] using hfull
    | ack t =>
      have hch : chrono (acknowledgeFall s t).lastPopupAt rest = true := h2
      have hmain := ih (acknowledgeFall s t) hch
      have hweak := chain_head_mono h1le hmain
      simpa [raiseTimes, fallEventStep] using hweak

/-- C4: along any chronological sequence of metadata replies and operator
acknowledgments, the raise times are pairwise separated by more than
8000 ms and each exceeds the anchor `lastPopupAt` by more than 8000 ms —
instantiated at a post-acknowledgment state (whose `lastPopupAt` is the
acknowledgment time) this says no raise occurs within the 8000 ms cooldown
after an acknowledgment; acknowledgment itself hides the alert, sets the
acknowledged flag, and refreshes the last-shown timestamp. -/
theorem raises_spaced_by_cooldown (s : FallState) (evs : List FallEvent)
    (h : chrono s.lastPopupAt evs = true) :
    List.Pairwise (fun x y => x + 8000 < y)
      (s.lastPopupAt :: raiseTimes s evs) ∧
    (∀ t, (acknowledgeFall s t).showAlert = false ∧
          (acknowledgeFall s t).acknowledgedFall = true ∧
          (acknowledgeFall s t).lastPopupAt = t) := by
  constructor
  · haveI : IsTrans Nat (fun x y => x + 8000 < y) :=
      ⟨fun a b c hab hbc => by omega⟩
    exact List.chain'_iff_pairwise.mp (raiseTimes_chain evs s h)
  · exact fun t => ⟨rfl, rfl, rfl⟩

/-- C4 witness: two chronological fall-positive replies from the initial
state, for which the theorem delivers the pairwise cooldown spacing. -/
theorem raises_spaced_by_cooldown_witness :
    chrono initFallState.lastPopupAt twoTrueReplies = true ∧
    List.Pairwise (fun x y => x + 8000 < y)
      (initFallState.lastPopupAt :: raiseTimes initFallState twoTrueReplies) :=
  ⟨by decide,
   (raises_spaced_by_cooldown initFallState twoTrueReplies (by decide)).1⟩

/-- C7: the draw rectangle fits inside the canvas, preserves the source
aspect ratio exactly (never stretched), and is centered on both axes; the
source dimensions come from the metadata's declared frame size, falling
back to the video element's native size; and concretely a 1920×1080 source
in an 800×800 canvas letterboxes to 800×450 at vertical offset 175, onto
which a full-frame detection maps exactly. -/
theorem letterbox_correct :
    (∀ cw ch sw sh : ℚ, 0 < cw → 0 < ch → 0 < sw → 0 < sh →
      (letterbox cw ch sw sh).drawW ≤ cw ∧
      (letterbox cw ch sw sh).drawH ≤ ch ∧
      (letterbox cw ch sw sh).drawW * sh = (letterbox cw ch sw sh).drawH * sw ∧
      (letterbox cw ch sw sh).drawX = (cw - (letterbox cw ch sw sh).drawW) / 2 ∧
      (letterbox cw ch sw sh).drawY =
        (ch - (letterbox cw ch sw sh).drawH) / 2) ∧
    sourceDims (some md1920) 0 0 = (1920, 1080) ∧
    sourceDims none 640 480 = (640, 480) ∧
    letterbox 800 800 1920 1080 =
      { drawX := 0, drawY := 175, drawW := 800, drawH := 450 } ∧
    drawBoxRect fullFrameDet (letterbox 800 800 1920 1080) 1920 1080 =
      (0, 175, 800, 450) := by
  refine ⟨fun cw ch sw sh hcw hch hsw hsh => ?_, rfl, rfl, ?_, ?_⟩
  · have hswne : sw ≠ 0 := ne_of_gt hsw
    have hshne : sh ≠ 0 := ne_of_gt hsh
    simp only [letterbox]
    split_ifs with hA
    · have hlt : cw * sh < sw * ch := (div_lt_div_iff₀ hch hsh).mp hA
      refine ⟨le_rfl, ?_, ?_, by simp, rfl⟩
      · show cw / (sw / sh) ≤ ch
        rw [div_div_eq_mul_div, div_le_iff₀ hsw]
        linarith [mul_comm sw ch]
      · show cw * sh = cw / (sw / sh) * sw
        rw [div_div_eq_mul_div, div_mul_cancel₀ _ hswne]
    · have hle : sw * ch ≤ cw * sh :=
        (div_le_div_iff₀ hsh hch).mp (not_lt.mp hA)
      refine ⟨?_, le_rfl, ?_, rfl, by simp⟩
      · show ch * (sw / sh) ≤ cw
        rw [← mul_div_assoc, div_le_iff₀ hsh]
        linarith [mul_comm sw ch]
      · show ch * (sw / sh) * sh = ch * sw
        rw [mul_assoc, div_mul_cancel₀ _ hshne]
  · simp only [letterbox]
    rw [if_pos (by norm_num)]
    norm_num [DrawRect.mk.injEq]
  · simp only [drawBoxRect, letterbox, fullFrameDet]
    rw [if_pos (by norm_num)]
    norm_num [Prod.ext_iff]

/-- C7 witness: the general letterbox properties instantiated at the
800×800 canvas with a 1920×1080 source. -/
theorem letterbox_correct_witness :
    (0 : ℚ) < 800 ∧ (0 : ℚ) < 1920 ∧ (0 : ℚ) < 1080 ∧
    ((letterbox 800 800 1920 1080).drawW ≤ 800 ∧
     (letterbox 800 800 1920 1080).drawH ≤ 800 ∧
     (letterbox 800 800 1920 1080).drawW * 1080 =
       (letterbox 800 800 1920 1080).drawH * 1920 ∧
     (letterbox 800 800 1920 1080).drawX =
       (800 - (letterbox 800 800 1920 1080).drawW) / 2 ∧
     (letterbox 800 800 1920 1080).drawY =
       (800 - (letterbox 800 800 1920 1080).drawH) / 2) :=
  ⟨by norm_num, by norm_num, by norm_num,
   letterbox_correct.1 800 800 1920 1080
     (by norm_num) (by norm_num) (by norm_num) (by norm_num)⟩

/-- C8: on every paint tick the effective detection set is the latest
metadata's list when non-empty; otherwise the sticky (most recent
non-empty) set while fewer than 600 ms have elapsed since it arrived;
otherwise empty — and a non-empty reply is recorded as the sticky set
together with its arrival time, while empty or absent metadata leaves the
sticky refs unchanged. -/
theorem overlay_stickiness (m : Option InferMetadata)
    (sticky : List Detection) (stickyAt now : Nat) :
    (latestDets m ≠ [] → resolveDets m sticky stickyAt now = latestDets m) ∧
    (latestDets m = [] → now - stickyAt < 600 →
      resolveDets m sticky stickyAt now = sticky) ∧
    (latestDets m = [] → 600 ≤ now - stickyAt →
      resolveDets m sticky stickyAt now = []) ∧
    (∀ md, m = some md → md.dets ≠ [] →
      noteMetadata m sticky stickyAt now = (md.dets, now)) ∧
    (∀ md, m = some md → md.dets = [] →
      noteMetadata m sticky stickyAt now = (sticky, stickyAt)) ∧
    (m = none → noteMetadata m sticky stickyAt now = (sticky, stickyAt)) := by
  cases m with
  | none =>
    refine ⟨fun h => absurd rfl h, fun _ h600 => ?_, fun _ h600 => ?_,
            fun md hmd => Option.noConfusion hmd,
            fun md hmd => Option.noConfusion hmd, fun _ => rfl⟩
    · show (if now - stickyAt < 600 then sticky else []) = sticky
      rw [if_pos h600]
    · show (if now - stickyAt < 600 then sticky else []) = []
      rw [if_neg (by omega)]
  | some md =>
    refine ⟨fun h => ?_, fun h h600 => ?_, fun h h600 => ?_,
            fun md2 hmd hne => ?_, fun md2 hmd he => ?_,
            fun hco => Option.noConfusion hco⟩
    · have h' : md.dets ≠ [] := h
      have hlen : 0 < md.dets.length := List.length_pos.mpr h'
      show (if md.dets.length > 0 then md.dets
            else if now - stickyAt < 600 then sticky else []) = md.dets
      rw [if_pos hlen]
    · have h' : md.dets = [] := h
      have hz : md.dets.length = 0 := by rw [h']; rfl
      show (if md.dets.length > 0 then md.dets
            else if now - stickyAt < 600 then sticky else []) = sticky
      rw [if_neg (by omega), if_pos h600]
    · have h' : md.dets = [] := h
      have hz : md.dets.length = 0 := by rw [h']; rfl
      show (if md.dets.length > 0 then md.dets
            else if now - stickyAt < 600 then sticky else []) = []
      rw [if_neg (by omega), if_neg (by omega)]
    · rw [hmd]
      have hlen : 0 < md2.dets.length := List.length_pos.mpr hne
      show (if md2.dets.length > 0 then (md2.dets, now)
            else (sticky, stickyAt)) = (md2.dets, now)
      rw [if_pos hlen]
    · rw [hmd]
      have hz : md2.dets.length = 0 := by rw [he]; rfl
      show (if md2.dets.length > 0 then (md2.dets, now)
            else (sticky, stickyAt)) = (sticky, stickyAt)
      rw [if_neg (by omega)]

/-- C8 witness: with an empty latest reply and a 100 ms old sticky set,
the sticky set is rendered. -/
theorem overlay_stickiness_witness :
    latestDets (some mdEmpty) = [] ∧ 100 - 0 < 600 ∧
    resolveDets (some mdEmpty) [det0] 0 100 = [det0] :=
  ⟨rfl, by omega,
   (overlay_stickiness (some mdEmpty) [det0] 0 100).2.1 rfl (by omega)⟩

theorem mapGet_mapDelete {α : Type} (l : List (String × α)) (k : String) :
    mapGet (mapDelete l k) k = none := by
  rw [mapGet, Option.map_eq_none', List.find?_eq_none]
  intro x hx
  have hkeep := (List.mem_filter.mp hx).2
  rw [Bool.not_eq_eq_eq_not, Bool.not_true] at hkeep
  simp [hkeep]

theorem setLiveAutoStart_absent (camId : String) (b : Bool)
    (w : SessionWorld) (h : getLiveSession camId w = none) :
    setLiveAutoStart camId b w = w := by
  rw [setLiveAutoStart, h]

theorem setUploadAutoStart_absent (camId : String) (b : Bool)
    (w : SessionWorld) (h : getUploadSession camId w = none) :
    setUploadAutoStart camId b w = w := by
  rw [setUploadAutoStart, h]

theorem getLiveSession_clear (camId : String) (w : SessionWorld) :
    getLiveSession camId (clearLiveSession camId w) = none := by
  show mapGet (mapDelete w.liveSessions camId) camId = none
  exact mapGet_mapDelete _ _

/-- C10: the auto-resume mutators are no-ops for an unregistered camera
id — the registry is returned entirely unchanged (no entry created, no
entry modified) — and therefore the `setLiveAutoStart(camId, false)` in
Stop, running after `clearLiveSession` has deleted the entry, leaves the
registry exactly as `clearLiveSession` left it. -/
theorem autoresume_mutators_noop :
    (∀ (w : SessionWorld) (camId : String) (b : Bool),
      getLiveSession camId w = none → setLiveAutoStart camId b w = w) ∧
    (∀ (w : SessionWorld) (camId : String) (b : Bool),
      getUploadSession camId w = none → setUploadAutoStart camId b w = w) ∧
    (∀ (w : SessionWorld) (camId : String),
      setLiveAutoStart camId false (clearLiveSession camId w) =
        clearLiveSession camId w) :=
  ⟨fun w camId b h => setLiveAutoStart_absent camId b w h,
   fun w camId b h => setUploadAutoStart_absent camId b w h,
   fun w camId =>
     setLiveAutoStart_absent camId false _ (getLiveSession_clear camId w)⟩

/-- C10 witness: the live mutator applied to the empty registry. -/
theorem autoresume_mutators_noop_witness :
    getLiveSession "cam1" wEmpty = none ∧
    setLiveAutoStart "cam1" true wEmpty = wEmpty :=
  ⟨rfl, autoresume_mutators_noop.1 wEmpty "cam1" true rfl⟩

/-- C9: after the registry effects of Stop (`clearLiveSession` then
`setLiveAutoStart _ false`), every track of the camera's registered media
stream has been stopped, the registry no longer holds a session for the
camera id, and a remount's `resumeLive` guard fails, so streaming is not
resumed. -/
theorem stop_releases_media_and_session (w : SessionWorld) (camId : String)
    (s : LiveSession) (h : getLiveSession camId w = some s) :
    (∀ tid ∈ s.trackIds, tid ∈ (stopAllRegistry camId w).stoppedTracks) ∧
    getLiveSession camId (stopAllRegistry camId w) = none ∧
    resumeLiveStarts camId (stopAllRegistry camId w) = false := by
  have hclear : stopAllRegistry camId w = clearLiveSession camId w := by
    rw [stopAllRegistry]
    exact setLiveAutoStart_absent camId false _ (getLiveSession_clear camId w)
  refine ⟨?_, ?_, ?_⟩
  · intro tid htid
    rw [hclear]
    have hstop : (clearLiveSession camId w).stoppedTracks =
        w.stoppedTracks ++ s.trackIds := by
      rw [clearLiveSession, h]
    rw [hstop]
    exact List.mem_append_right _ htid
  · rw [hclear]
    exact getLiveSession_clear camId w
  · rw [resumeLiveStarts, hclear, getLiveSession_clear]

/-- C9 witness: stopping camera `cam1` in the registry `w0` stops both of
its device tracks, removes the session and defeats auto-resume. -/
theorem stop_releases_media_and_session_witness :
    getLiveSession "cam1" w0 = some { trackIds := [5, 7], autoStart := true } ∧
    getLiveSession "cam1" (stopAllRegistry "cam1" w0) = none ∧
    resumeLiveStarts "cam1" (stopAllRegistry "cam1" w0) = false ∧
    5 ∈ (stopAllRegistry "cam1" w0).stoppedTracks :=
  ⟨rfl,
   (stop_releases_media_and_session w0 "cam1" _ rfl).2.1,
   (stop_releases_media_and_session w0 "cam1" _ rfl).2.2,
   (stop_releases_media_and_session w0 "cam1"
      { trackIds := [5, 7], autoStart := true } rfl).1 5 (by decide)⟩

end PPE
